import Mathlib

/-!
# Verification of the Qik Office backend (entity/query layer)

Shallow embedding of `src/main.py` and `src/schemas.py`: documents of the
backing store are association lists from field names to values, collections
are lists of documents, and each HTTP handler becomes a Lean function from
a request and a store state to a result and a (possibly updated) store state.
The generic document-store adapter (`database.py`) is not part of the source
tree; the two functions the handlers use from it are modelled from the spec
and marked as such.
-/

namespace QikOffice

set_option autoImplicit false

/-! ## Date/time model

Python `datetime.datetime` values are modelled down to second precision
(the code never constructs sub-second timestamps from its inputs, and both
`isoformat` and `str` round-trip what we model). -/

structure DateTime where
  year : Nat
  month : Nat
  day : Nat
  hour : Nat
  minute : Nat
  second : Nat
  deriving DecidableEq, Repr

/-- Two-digit zero padding used by `datetime.isoformat`. -/
def pad2 (n : Nat) : String :=
  if n < 10 then "0" ++ toString n else toString n

/-- Four-digit zero padding for the year field of `datetime.isoformat`. -/
def pad4 (n : Nat) : String :=
  if n < 10 then "000" ++ toString n
  else if n < 100 then "00" ++ toString n
  else if n < 1000 then "0" ++ toString n
  else toString n

/-- Python `datetime.isoformat()` for a whole-second datetime: `YYYY-MM-DDTHH:MM:SS`. -/
def DateTime.isoformat (t : DateTime) : String :=
  pad4 t.year ++ "-" ++ pad2 t.month ++ "-" ++ pad2 t.day ++ "T" ++
    pad2 t.hour ++ ":" ++ pad2 t.minute ++ ":" ++ pad2 t.second

/-- Python `str(datetime)` (used only by the generic `str` fallback): space separator. -/
def DateTime.pyFormat (t : DateTime) : String :=
  pad4 t.year ++ "-" ++ pad2 t.month ++ "-" ++ pad2 t.day ++ " " ++
    pad2 t.hour ++ ":" ++ pad2 t.minute ++ ":" ++ pad2 t.second

def isLeapYear (y : Nat) : Bool :=
  (y % 4 == 0 && y % 100 != 0) || y % 400 == 0

def daysInMonth (y m : Nat) : Nat :=
  if m == 2 then (if isLeapYear y then 29 else 28)
  else if m == 4 || m == 6 || m == 9 || m == 11 then 30
  else 31

/-- Value of a decimal digit character. -/
def d2n (c : Char) : Nat := c.toNat - 48

def digitsToNat (l : List Char) : Nat :=
  l.foldl (fun a c => a * 10 + d2n c) 0

/-- Range checks of `datetime`: hour below 24, minute and second below 60. -/
def checkTime (h mi se : Nat) : Option (Nat × Nat × Nat) :=
  if h < 24 && mi < 60 && se < 60 then some (h, mi, se) else none

/-- Parse the `HH:MM` or `HH:MM:SS` tail of an ISO datetime string. -/
def parseTimePart (t : List Char) : Option (Nat × Nat × Nat) :=
  match t with
  | [h1, h2, ':', mi1, mi2] =>
    if [h1, h2, mi1, mi2].all Char.isDigit then
      checkTime (digitsToNat [h1, h2]) (digitsToNat [mi1, mi2]) 0
    else none
  | [h1, h2, ':', mi1, mi2, ':', s1, s2] =>
    if [h1, h2, mi1, mi2, s1, s2].all Char.isDigit then
      checkTime (digitsToNat [h1, h2]) (digitsToNat [mi1, mi2]) (digitsToNat [s1, s2])
    else none
  | _ => none

/-- Model of Python `datetime.fromisoformat`: `YYYY-MM-DD`, optionally
followed by a `T` or space separator and `HH:MM` or `HH:MM:SS`, with
calendar and clock ranges validated; anything else raises `ValueError`,
modelled as `none`. (Fractional seconds and timezone offsets, which the
real parser also accepts, are not modelled; no claim depends on a string
using them.) -/
def fromisoformat (s : String) : Option DateTime :=
  match s.toList with
  | y1 :: y2 :: y3 :: y4 :: '-' :: mo1 :: mo2 :: '-' :: d1 :: d2 :: rest =>
    if [y1, y2, y3, y4, mo1, mo2, d1, d2].all Char.isDigit then
      let y := digitsToNat [y1, y2, y3, y4]
      let mo := digitsToNat [mo1, mo2]
      let dy := digitsToNat [d1, d2]
      if 1 ≤ y && 1 ≤ mo && mo ≤ 12 && 1 ≤ dy && dy ≤ daysInMonth y mo then
        match rest with
        | [] => some ⟨y, mo, dy, 0, 0, 0⟩
        | sep :: t =>
          if sep == 'T' || sep == ' ' then
            match parseTimePart t with
            | some (h, mi, se) => some ⟨y, mo, dy, h, mi, se⟩
            | none => none
          else none
      else none
    else none
  | _ => none

/-! ## Documents and values

A stored document is an association list of field name to value, mirroring a
BSON document / Python dict (keys unique, insertion-ordered). -/

/-- The value types that actually occur in this backend's documents. -/
inductive Value where
  | vStr : String → Value
  | vInt : Int → Value
  /-- A BSON ObjectId, carried as its 24-hex-character string form. -/
  | vOid : String → Value
  | vDT : DateTime → Value
  | vNone : Value
  | vList : List String → Value
  deriving DecidableEq, Repr

abbrev Doc := List (String × Value)

/-- Python `str()` on the values above. (Lists are rendered without the
per-element quoting of Python `repr`; `str` is only ever applied to
identifier fields, which are never lists.) -/
def pyStr : Value → String
  | .vStr s => s
  | .vInt n => toString n
  | .vOid s => s
  | .vDT t => t.pyFormat
  | .vNone => "None"
  | .vList xs => "[" ++ String.intercalate ", " xs ++ "]"

/-- The removal half of Python `d.pop(k)`: drop the entry with key `k`,
keeping every other entry in order. -/
def removeKey : Doc → String → Doc
  | [], _ => []
  | kv :: t, k => if kv.1 = k then removeKey t k else kv :: removeKey t k

/-- Overwrite the value stored under an existing key, in place. -/
def replaceKey : Doc → String → Value → Doc
  | [], _, _ => []
  | kv :: t, k, v => if kv.1 = k then (k, v) :: replaceKey t k v else kv :: replaceKey t k v

/-- Python `d[k] = v` on a dict (and Mongo `$set` of a single field):
overwrite the value in place if the key is present, else append the pair. -/
def dictSet (d : Doc) (k : String) (v : Value) : Doc :=
  if (d.lookup k).isSome then replaceKey d k v else d ++ [(k, v)]

/-! ## Record serialization (`serialize_doc` / `serialize_list`, main.py 29-47) -/

/-- The datetime-conversion loop of `serialize_doc`: each entry whose value
is a datetime is reassigned its `isoformat` string, in place. -/
def renderDoc : Doc → Doc
  | [] => []
  | (k, .vDT t) :: rest => (k, .vStr t.isoformat) :: renderDoc rest
  | kv :: rest => kv :: renderDoc rest

/-- Function `serialize_doc`: copy the document; if `_id` is present, pop it and set
`id` to its string form; then replace every datetime value by its
`isoformat` string. -/
def serialize_doc (doc : Doc) : Doc :=
  if doc.isEmpty then doc
  else
    let d :=
      match doc.lookup "_id" with
      | some v => dictSet (removeKey doc "_id") "id" (.vStr (pyStr v))
      | none => doc
    renderDoc d

def serialize_list (items : List Doc) : List Doc :=
  items.map serialize_doc

/-! ## Store state

One list of documents per collection the verified handlers touch, plus a
counter from which fresh ObjectIds are drawn at insertion.  A `Store` value
plays the role of an available `db` connection (the `db is None` guard of
the handlers is the StoreUnavailable branch, outside every claim here). -/

structure Store where
  workspace : List Doc
  room : List Doc
  meeting : List Doc
  task : List Doc
  fresh : Nat
  deriving DecidableEq, Repr

/-- Render a counter as a 24-hex-character ObjectId string. -/
def freshOid (n : Nat) : String :=
  let hex := Nat.toDigits 16 n
  String.mk (List.replicate (24 - hex.length) '0' ++ hex)

/-! ## Document store adapter (database.py, not in the source tree) -/

/-- Modelled from the spec: `database.py` (the Document Store Adapter) is not
under `src/`.  Per §4.2, `query(collectionName, filter)` returns every record
in the collection whose fields match all filter entries exactly, an empty
filter returning all records, in store-native insertion order. -/
def get_documents (coll : List Doc) (filter_q : List (String × Value)) : List Doc :=
  coll.filter (fun d => filter_q.all (fun kv => d.lookup kv.1 = some kv.2))

/-- Modelled from the spec: `database.py` is not under `src/`.  Per §4.2,
`insert(collectionName, entity)` serializes the entity's fields into a
record, assigns a new unique identifier, persists it, and returns the
identifier as an opaque string. -/
def create_document (coll : List Doc) (fresh : Nat) (fields : Doc) : List Doc × String :=
  let oid := freshOid fresh
  (coll ++ [("_id", Value.vOid oid) :: fields], oid)

/-! ## Entities (schemas.py)

Pydantic models become structures; a field that pydantic defaults when the
caller omits it becomes an `Option` argument of the `make` function, with
the schema's default applied to `none`. -/

structure Workspace where
  name : String
  owner_user_id : String
  member_user_ids : List String
  description : Option String
  deriving DecidableEq, Repr

/-- Constructing `Workspace(...)`: `member_user_ids` defaults to the empty list. -/
def Workspace.make (name owner_user_id : String)
    (member_user_ids : Option (List String)) (description : Option String) :
    Workspace :=
  { name := name
    owner_user_id := owner_user_id
    member_user_ids := member_user_ids.getD []
    description := description }

structure Meeting where
  room_id : String
  title : String
  scheduled_at : DateTime
  duration_minutes : Int
  host_user_id : String
  participant_user_ids : List String
  status : String
  recording_url : Option String
  deriving DecidableEq, Repr

/-- Constructing `Meeting(...)`: `duration_minutes` defaults to 60, `participant_user_ids`
to the empty list, `status` to "scheduled", `recording_url` to None. -/
def Meeting.make (room_id title : String) (scheduled_at : DateTime)
    (duration_minutes : Option Int) (host_user_id : String)
    (participant_user_ids : Option (List String)) (status : Option String)
    (recording_url : Option String) : Meeting :=
  { room_id := room_id
    title := title
    scheduled_at := scheduled_at
    duration_minutes := duration_minutes.getD 60
    host_user_id := host_user_id
    participant_user_ids := participant_user_ids.getD []
    status := status.getD "scheduled"
    recording_url := recording_url }

structure Task where
  meeting_id : String
  title : String
  assignee_user_id : Option String
  due_date : Option DateTime
  status : String
  deriving DecidableEq, Repr

/-- Constructing `Task(...)`: `status` defaults to "open". -/
def Task.make (meeting_id title : String) (assignee_user_id : Option String)
    (due_date : Option DateTime) (status : Option String) : Task :=
  { meeting_id := meeting_id
    title := title
    assignee_user_id := assignee_user_id
    due_date := due_date
    status := status.getD "open" }

/-- The document persisted for a Meeting entity (field order of the model). -/
def meetingToDoc (m : Meeting) : Doc :=
  [("room_id", .vStr m.room_id),
   ("title", .vStr m.title),
   ("scheduled_at", .vDT m.scheduled_at),
   ("duration_minutes", .vInt m.duration_minutes),
   ("host_user_id", .vStr m.host_user_id),
   ("participant_user_ids", .vList m.participant_user_ids),
   ("status", .vStr m.status),
   ("recording_url", match m.recording_url with | some u => .vStr u | none => .vNone)]

/-! ## Errors

`AppError.httpError` is a `fastapi.HTTPException` raised by a handler and
mapped by the framework to a response with that status; `AppError.uncaught`
is an exception the handler does not catch, which the framework surfaces as
a 500 Internal Server Error. -/

inductive AppError where
  | httpError : Nat → String → AppError
  | uncaught : String → AppError
  deriving DecidableEq, Repr

/-- A client error is an `HTTPException` with a 4xx status; an uncaught
exception is surfaced as a 500 server error, never a client error. -/
def AppError.isClientError : AppError → Bool
  | .httpError st _ => 400 ≤ st && st < 500
  | .uncaught _ => false

def notFoundError : AppError := .httpError 404 "Task not found"

def invalidTaskIdError : AppError := .httpError 400 "Invalid task id"

/-! ## List handlers (main.py 136-142, 203-207, 253-261)

Python's `if x:` on an `Optional[str]` is true exactly when the value is
present and nonempty. -/

def strTruthy : Option String → Bool
  | some s => s ≠ ""
  | none => false

/-- Handler for `GET /api/workspaces` (main.py 136-142). -/
def list_workspaces (owner_user_id : Option String) (s : Store) : List Doc :=
  let filter_q : List (String × Value) :=
    if strTruthy owner_user_id then [("owner_user_id", .vStr (owner_user_id.getD ""))] else []
  serialize_list (get_documents s.workspace filter_q)

/-- Handler for `GET /api/meetings` (main.py 203-207). -/
def list_meetings (room_id : Option String) (s : Store) : List Doc :=
  let q : List (String × Value) :=
    if strTruthy room_id then [("room_id", .vStr (room_id.getD ""))] else []
  serialize_list (get_documents s.meeting q)

/-- Handler for `GET /api/tasks` (main.py 253-261). -/
def list_tasks (meeting_id assignee_user_id : Option String) (s : Store) : List Doc :=
  let q : List (String × Value) :=
    (if strTruthy meeting_id then [("meeting_id", .vStr (meeting_id.getD ""))] else []) ++
    (if strTruthy assignee_user_id then [("assignee_user_id", .vStr (assignee_user_id.getD ""))] else [])
  serialize_list (get_documents s.task q)

/-! ## Meeting creation (main.py 187-200) -/

structure CreateMeetingRequest where
  room_id : String
  title : String
  scheduled_at : String
  duration_minutes : Int
  host_user_id : String
  participant_user_ids : List String
  deriving DecidableEq, Repr

/-- Handler for `POST /api/meetings`: parse `scheduled_at` with `datetime.fromisoformat`
(the `ValueError` of an unparsable string propagates uncaught out of the
handler), construct the Meeting entity, insert it, return its id. -/
def create_meeting (req : CreateMeetingRequest) (s : Store) :
    Except AppError String × Store :=
  match fromisoformat req.scheduled_at with
  | none => (.error (.uncaught ("Invalid isoformat string: " ++ req.scheduled_at)), s)
  | some scheduled_dt =>
    let mtg := Meeting.make req.room_id req.title scheduled_dt
      (some req.duration_minutes) req.host_user_id
      (some req.participant_user_ids) none none
    let r := create_document s.meeting s.fresh (meetingToDoc mtg)
    (.ok r.2, { s with meeting := r.1, fresh := s.fresh + 1 })

/-! ## Task status update (main.py 269-280) -/

/-- Predicate for `bson.ObjectId(string)`: construction succeeds exactly on a 24-character hex string. -/
def isValidObjectId (s : String) : Bool :=
  s.length == 24 && s.toList.all (fun c => c.isDigit || ('a' ≤ c && c ≤ 'f') || ('A' ≤ c && c ≤ 'F'))

/-- Mongo `update_one({_id: oid}, {$set: {status: st}})` on a collection:
set the `status` field of the first document whose `_id` equals the
ObjectId, returning the new collection and the matched count (0 or 1). -/
def update_one_set_status : List Doc → String → String → List Doc × Nat
  | [], _, _ => ([], 0)
  | d :: ds, oid, st =>
    if d.lookup "_id" = some (.vOid oid) then
      (dictSet d "status" (.vStr st) :: ds, 1)
    else
      let r := update_one_set_status ds oid st
      (d :: r.1, r.2)

/-- Handler for `PATCH /api/tasks/{task_id}/status`: reject a malformed id with 400,
update the matching task's status, 404 when nothing matched, else return
the id and the new status. -/
def update_task_status (task_id : String) (status : String) (s : Store) :
    Except AppError (String × String) × Store :=
  if isValidObjectId task_id then
    let r := update_one_set_status s.task task_id status
    if r.2 = 0 then (.error notFoundError, s)
    else (.ok (task_id, status), { s with task := r.1 })
  else (.error invalidTaskIdError, s)

/-! ## Dashboard summary (main.py 287-315) -/

structure Summary where
  rooms : Nat
  meetings : Nat
  tasks : Nat
  tasks_done : Nat
  completion_rate : Rat
  deriving DecidableEq, Repr

/-- Value of `str(d["_id"])` / `str(d.get("_id"))`: the id string of a document
(`"None"` when the field is absent, as `str(None)` renders it; the
handlers only reach the absent case through `dict.get`). -/
def docIdStr (d : Doc) : String :=
  pyStr ((d.lookup "_id").getD .vNone)

/-- Handler for `GET /api/dashboard/summary` (main.py 287-315): rooms of the workspace,
meetings of those rooms (query skipped when no rooms), tasks of those
meetings — with the task query left unfiltered when the meeting-id list is
empty — and the completion ratio of "done" tasks. -/
def dashboard_summary (workspace_id : String) (s : Store) : Summary :=
  let rooms := s.room.filter (fun d => d.lookup "workspace_id" = some (.vStr workspace_id))
  let room_ids := rooms.map docIdStr
  let meetings :=
    if room_ids.isEmpty then []
    else s.meeting.filter (fun d =>
      match d.lookup "room_id" with
      | some (.vStr x) => room_ids.contains x
      | _ => false)
  let meeting_ids := meetings.map docIdStr
  let tasks :=
    if meeting_ids.isEmpty then s.task
    else s.task.filter (fun d =>
      match d.lookup "meeting_id" with
      | some (.vStr x) => meeting_ids.contains x
      | _ => false)
  let total_tasks := tasks.length
  let done_tasks := (tasks.filter (fun t => (t.lookup "status").getD .vNone = .vStr "done")).length
  { rooms := rooms.length
    meetings := meetings.length
    tasks := total_tasks
    tasks_done := done_tasks
    completion_rate := if total_tasks = 0 then 0 else (done_tasks : Rat) / (total_tasks : Rat) }

/-! ## Spec-side dashboard pipeline (claim C1's wording)

A second rendering of the summary algorithm written from the spec's
sentences, to be compared with `dashboard_summary` (which is translated
from the handler): rooms are obtained through the adapter's equality-filter
`query`, and each later stage is phrased as the claim phrases it. -/

def specDashRooms (wid : String) (s : Store) : List Doc :=
  get_documents s.room [("workspace_id", .vStr wid)]

def specDashRoomIds (wid : String) (s : Store) : List String :=
  (specDashRooms wid s).map docIdStr

/-- Empty room-identifier set ⇒ the meeting query is skipped (empty result). -/
def specDashMeetings (wid : String) (s : Store) : List Doc :=
  if (specDashRoomIds wid s).isEmpty then []
  else s.meeting.filter (fun d =>
    match d.lookup "room_id" with
    | some (.vStr x) => (specDashRoomIds wid s).contains x
    | _ => false)

def specDashMeetingIds (wid : String) (s : Store) : List String :=
  (specDashMeetings wid s).map docIdStr

/-- Empty meeting-identifier set ⇒ the task query is unfiltered and runs
against the whole Task collection. -/
def specDashTasks (wid : String) (s : Store) : List Doc :=
  if (specDashMeetingIds wid s).isEmpty then s.task
  else s.task.filter (fun d =>
    match d.lookup "meeting_id" with
    | some (.vStr x) => (specDashMeetingIds wid s).contains x
    | _ => false)

/-- A task document whose `status` field equals `"done"`. -/
def isDoneTask (t : Doc) : Bool :=
  (t.lookup "status").getD .vNone = .vStr "done"

/-! ## Helper lemmas on association-list documents -/

theorem lookup_removeKey_ne (d : Doc) (e : String) {k : String} (h : k ≠ e) :
    (removeKey d e).lookup k = d.lookup k := by
  induction d with
  | nil => rfl
  | cons kv t ih =>
    obtain ⟨a, b⟩ := kv
    by_cases ha : a = e
    · subst ha
      simp [removeKey, List.lookup, beq_eq_false_iff_ne.mpr h, ih]
    · by_cases hk : k = a
      · subst hk
        simp [removeKey, ha, List.lookup]
      · simp [removeKey, ha, List.lookup, beq_eq_false_iff_ne.mpr hk, ih]

theorem lookup_removeKey_self (d : Doc) (e : String) :
    (removeKey d e).lookup e = none := by
  induction d with
  | nil => rfl
  | cons kv t ih =>
    obtain ⟨a, b⟩ := kv
    by_cases ha : a = e
    · subst ha
      simp [removeKey, ih]
    · simp [removeKey, ha, List.lookup, beq_eq_false_iff_ne.mpr (Ne.symm ha), ih]

theorem lookup_append_none {l₁ : Doc} (l₂ : Doc) {k : String}
    (h : l₁.lookup k = none) : (l₁ ++ l₂).lookup k = l₂.lookup k := by
  induction l₁ with
  | nil => rfl
  | cons kv t ih =>
    obtain ⟨a, b⟩ := kv
    by_cases hk : k = a
    · subst hk
      simp [List.lookup] at h
    · simp only [List.cons_append, List.lookup, beq_eq_false_iff_ne.mpr hk] at h ⊢
      exact ih h

theorem lookup_append_some {l₁ : Doc} (l₂ : Doc) {k : String} {v : Value}
    (h : l₁.lookup k = some v) : (l₁ ++ l₂).lookup k = some v := by
  induction l₁ with
  | nil => simp [List.lookup] at h
  | cons kv t ih =>
    obtain ⟨a, b⟩ := kv
    by_cases hk : k = a
    · subst hk
      simp only [List.lookup, beq_self_eq_true] at h ⊢
      exact h
    · simp only [List.cons_append, List.lookup, beq_eq_false_iff_ne.mpr hk] at h ⊢
      exact ih h

/-- The value-rendering half of `serialize_doc`: datetimes become their
`isoformat` strings, every other value is passed through unchanged. -/
def renderField : Value → Value
  | .vDT t => .vStr t.isoformat
  | v => v

theorem lookup_renderDoc (d : Doc) (k : String) :
    (renderDoc d).lookup k = (d.lookup k).map renderField := by
  induction d with
  | nil => rfl
  | cons kv t ih =>
    obtain ⟨a, b⟩ := kv
    by_cases hk : k = a
    · subst hk
      cases b <;> simp [renderDoc, List.lookup, renderField]
    · cases b <;> simp [renderDoc, List.lookup, beq_eq_false_iff_ne.mpr hk, ih]

theorem lookup_replaceKey_self (d : Doc) (k : String) (v : Value) :
    (replaceKey d k v).lookup k = if (d.lookup k).isSome then some v else none := by
  induction d with
  | nil => rfl
  | cons kv t ih =>
    obtain ⟨a, b⟩ := kv
    by_cases ha : a = k
    · subst ha
      simp [replaceKey, List.lookup]
    · have hba : (k == a) = false := beq_eq_false_iff_ne.mpr (Ne.symm ha)
      simp only [replaceKey, ha, if_false, List.lookup, hba, ih]

theorem lookup_replaceKey_ne (d : Doc) (k : String) (v : Value) {k' : String}
    (h : k' ≠ k) : (replaceKey d k v).lookup k' = d.lookup k' := by
  induction d with
  | nil => rfl
  | cons kv t ih =>
    obtain ⟨a, b⟩ := kv
    by_cases ha : a = k
    · subst ha
      simp [replaceKey, List.lookup, beq_eq_false_iff_ne.mpr h, ih]
    · by_cases hk : k' = a
      · subst hk
        simp [replaceKey, ha, List.lookup]
      · simp [replaceKey, ha, List.lookup, beq_eq_false_iff_ne.mpr hk, ih]

theorem dictSet_lookup_self (d : Doc) (k : String) (v : Value) :
    (dictSet d k v).lookup k = some v := by
  unfold dictSet
  by_cases h : (d.lookup k).isSome
  · rw [if_pos h, lookup_replaceKey_self, if_pos h]
  · rw [if_neg h]
    have hn : d.lookup k = none := Option.not_isSome_iff_eq_none.mp h
    rw [lookup_append_none _ hn]
    simp [List.lookup]

theorem dictSet_lookup_ne (d : Doc) (k : String) (v : Value) {k' : String}
    (h : k' ≠ k) : (dictSet d k v).lookup k' = d.lookup k' := by
  unfold dictSet
  by_cases hs : (d.lookup k).isSome
  · rw [if_pos hs, lookup_replaceKey_ne d k v h]
  · rw [if_neg hs]
    cases hv : d.lookup k' with
    | some x => exact lookup_append_some _ hv
    | none =>
      rw [lookup_append_none _ hv]
      simp [List.lookup, beq_eq_false_iff_ne.mpr h]

theorem get_documents_empty_filter (coll : List Doc) :
    get_documents coll [] = coll := by
  simp [get_documents]

theorem get_documents_single (coll : List Doc) (k : String) (v : Value) :
    get_documents coll [(k, v)] = coll.filter (fun d => d.lookup k = some v) := by
  unfold get_documents
  refine List.filter_congr ?_
  intro d _
  simp

theorem update_one_set_status_no_match (l : List Doc) (oid st : String)
    (h : ∀ d ∈ l, d.lookup "_id" ≠ some (.vOid oid)) :
    update_one_set_status l oid st = (l, 0) := by
  induction l with
  | nil => rfl
  | cons d t ih =>
    have hd := h d (List.mem_cons_self d t)
    rw [update_one_set_status, if_neg hd, ih (fun x hx => h x (List.mem_cons_of_mem _ hx))]

theorem update_one_set_status_found (l : List Doc) (oid st : String)
    (h : ∃ d ∈ l, d.lookup "_id" = some (.vOid oid)) :
    ∃ i, i < l.length ∧
      (l.getD i []).lookup "_id" = some (.vOid oid) ∧
      update_one_set_status l oid st =
        (l.set i (dictSet (l.getD i []) "status" (.vStr st)), 1) := by
  induction l with
  | nil => simp at h
  | cons d t ih =>
    by_cases hd : d.lookup "_id" = some (.vOid oid)
    · exact ⟨0, by simp, by simpa using hd, by rw [update_one_set_status, if_pos hd]; rfl⟩
    · have h' : ∃ x ∈ t, x.lookup "_id" = some (.vOid oid) := by
        obtain ⟨x, hx, hlx⟩ := h
        rcases List.mem_cons.mp hx with hxd | hxt
        · exact absurd (hxd ▸ hlx) hd
        · exact ⟨x, hxt, hlx⟩
      obtain ⟨i, hi, hgi, heq⟩ := ih h'
      refine ⟨i + 1, by simpa using hi, by simpa using hgi, ?_⟩
      rw [update_one_set_status, if_neg hd, heq]
      rfl

/-! ## Concrete data (the worked example of spec §8)

A workspace `"w1"` with 2 rooms, 3 meetings (2 in those rooms, 1 in a room
of another workspace), and 3 tasks of which 2 are linked to the workspace's
meetings and exactly 1 of those is done. -/

def exRoom1 : Doc :=
  [("_id", .vOid "a1a1a1a1a1a1a1a1a1a1a1a1"), ("workspace_id", .vStr "w1"),
   ("name", .vStr "Room A"), ("type", .vStr "online"), ("description", .vNone)]

def exRoom2 : Doc :=
  [("_id", .vOid "a2a2a2a2a2a2a2a2a2a2a2a2"), ("workspace_id", .vStr "w1"),
   ("name", .vStr "Room B"), ("type", .vStr "hybrid"), ("description", .vNone)]

def exRoom3 : Doc :=
  [("_id", .vOid "a3a3a3a3a3a3a3a3a3a3a3a3"), ("workspace_id", .vStr "w2"),
   ("name", .vStr "Room C"), ("type", .vStr "online"), ("description", .vNone)]

def exMeeting1 : Doc :=
  [("_id", .vOid "b1b1b1b1b1b1b1b1b1b1b1b1"),
   ("room_id", .vStr "a1a1a1a1a1a1a1a1a1a1a1a1"), ("title", .vStr "Standup"),
   ("scheduled_at", .vDT ⟨2024, 5, 1, 9, 0, 0⟩), ("duration_minutes", .vInt 30),
   ("host_user_id", .vStr "u1"), ("participant_user_ids", .vList ["u1", "u2"]),
   ("status", .vStr "scheduled"), ("recording_url", .vNone)]

def exMeeting2 : Doc :=
  [("_id", .vOid "b2b2b2b2b2b2b2b2b2b2b2b2"),
   ("room_id", .vStr "a2a2a2a2a2a2a2a2a2a2a2a2"), ("title", .vStr "Planning"),
   ("scheduled_at", .vDT ⟨2024, 5, 2, 14, 0, 0⟩), ("duration_minutes", .vInt 60),
   ("host_user_id", .vStr "u1"), ("participant_user_ids", .vList ["u2"]),
   ("status", .vStr "scheduled"), ("recording_url", .vNone)]

def exMeeting3 : Doc :=
  [("_id", .vOid "b3b3b3b3b3b3b3b3b3b3b3b3"),
   ("room_id", .vStr "a3a3a3a3a3a3a3a3a3a3a3a3"), ("title", .vStr "Elsewhere"),
   ("scheduled_at", .vDT ⟨2024, 5, 3, 10, 0, 0⟩), ("duration_minutes", .vInt 60),
   ("host_user_id", .vStr "u3"), ("participant_user_ids", .vList []),
   ("status", .vStr "scheduled"), ("recording_url", .vNone)]

def exTask1 : Doc :=
  [("_id", .vOid "c1c1c1c1c1c1c1c1c1c1c1c1"),
   ("meeting_id", .vStr "b1b1b1b1b1b1b1b1b1b1b1b1"), ("title", .vStr "Write minutes"),
   ("assignee_user_id", .vStr "u2"), ("due_date", .vDT ⟨2024, 5, 4, 0, 0, 0⟩),
   ("status", .vStr "done")]

def exTask2 : Doc :=
  [("_id", .vOid "c2c2c2c2c2c2c2c2c2c2c2c2"),
   ("meeting_id", .vStr "b2b2b2b2b2b2b2b2b2b2b2b2"), ("title", .vStr "Draft roadmap"),
   ("assignee_user_id", .vNone), ("due_date", .vNone),
   ("status", .vStr "open")]

def exTask3 : Doc :=
  [("_id", .vOid "c3c3c3c3c3c3c3c3c3c3c3c3"),
   ("meeting_id", .vStr "b3b3b3b3b3b3b3b3b3b3b3b3"), ("title", .vStr "Unrelated"),
   ("assignee_user_id", .vNone), ("due_date", .vNone),
   ("status", .vStr "done")]

def exWorkspace : Doc :=
  [("_id", .vOid "f0f0f0f0f0f0f0f0f0f0f0f0"), ("name", .vStr "Bright Media"),
   ("owner_user_id", .vStr "u1"), ("member_user_ids", .vList ["u1", "u2"]),
   ("description", .vNone)]

def exStore : Store :=
  { workspace := [exWorkspace]
    room := [exRoom1, exRoom2, exRoom3]
    meeting := [exMeeting1, exMeeting2, exMeeting3]
    task := [exTask1, exTask2, exTask3]
    fresh := 9 }

/-- A Meeting-create request whose `scheduled_at` text is not a valid
date/time. -/
def reqBad : CreateMeetingRequest :=
  { room_id := "a1a1a1a1a1a1a1a1a1a1a1a1"
    title := "Kickoff"
    scheduled_at := "not-a-date"
    duration_minutes := 60
    host_user_id := "u1"
    participant_user_ids := [] }

/-! ## Claim theorems -/

/-- C1: for every workspace identifier, the dashboard summary follows the
spec's algorithm — rooms are queried by `workspace_id` and their identifiers
collected; an empty room-identifier set skips the meeting query (empty
meeting result); tasks are queried filtered by `meeting_id` in the
meeting-identifier set, except that an empty meeting-identifier set leaves
the task query unfiltered over the whole Task collection; done tasks are
those whose `status` equals "done".  Stated for stores whose room records
carry the store-assigned `_id` field (every inserted record does; on such a
record the handler's `r["_id"]` access is total). -/
theorem claim_C1_dashboard_algorithm (wid : String) (s : Store)
    (hroom : ∀ d ∈ s.room, (d.lookup "_id").isSome) :
    (dashboard_summary wid s).rooms = (specDashRooms wid s).length ∧
    (dashboard_summary wid s).meetings = (specDashMeetings wid s).length ∧
    (dashboard_summary wid s).tasks = (specDashTasks wid s).length ∧
    (dashboard_summary wid s).tasks_done =
      ((specDashTasks wid s).filter isDoneTask).length := by
  have hr : specDashRooms wid s =
      s.room.filter (fun d => d.lookup "workspace_id" = some (.vStr wid)) :=
    get_documents_single _ _ _
  refine ⟨?_, ?_, ?_, ?_⟩ <;>
    simp only [dashboard_summary, specDashTasks, specDashMeetingIds, specDashMeetings,
      specDashRoomIds, hr, isDoneTask]
  rfl

/-- C1 witness: the worked example of spec §8 satisfies the hypothesis and
the algorithm equations. -/
theorem claim_C1_witness :
    (dashboard_summary "w1" exStore).tasks_done =
      ((specDashTasks "w1" exStore).filter isDoneTask).length :=
  (claim_C1_dashboard_algorithm "w1" exStore (by decide)).2.2.2

/-- C2: the dashboard summary's `completion_rate` equals
`tasks_done / tasks` when the task count is positive, and is exactly 0
when the task count is zero — no division by zero occurs. -/
theorem claim_C2_completion_rate (wid : String) (s : Store) :
    (0 < (dashboard_summary wid s).tasks →
      (dashboard_summary wid s).completion_rate =
        ((dashboard_summary wid s).tasks_done : Rat) /
          ((dashboard_summary wid s).tasks : Rat)) ∧
    ((dashboard_summary wid s).tasks = 0 →
      (dashboard_summary wid s).completion_rate = 0) := by
  have hrate : (dashboard_summary wid s).completion_rate =
      if (dashboard_summary wid s).tasks = 0 then 0
      else ((dashboard_summary wid s).tasks_done : Rat) /
        ((dashboard_summary wid s).tasks : Rat) := rfl
  constructor
  · intro h
    rw [hrate, if_neg h.ne']
  · intro h
    rw [hrate, if_pos h]

/-- C2 witness: on the spec §8 example (2 tasks, 1 done) the rate is the
quotient, namely 1/2. -/
theorem claim_C2_witness :
    (dashboard_summary "w1" exStore).completion_rate =
      ((dashboard_summary "w1" exStore).tasks_done : Rat) /
        ((dashboard_summary "w1" exStore).tasks : Rat) :=
  (claim_C2_completion_rate "w1" exStore).1 (by decide)

/-- C3 counterexample: on an unparsable `scheduled_at` the handler's
`datetime.fromisoformat` call raises out of the handler uncaught, so the
failure is a server error, not an InvalidInput client error (the store is
indeed left unchanged). -/
theorem claim_C3_counterexample :
    fromisoformat reqBad.scheduled_at = none ∧
    create_meeting reqBad exStore =
      (.error (.uncaught "Invalid isoformat string: not-a-date"), exStore) ∧
    (AppError.uncaught "Invalid isoformat string: not-a-date").isClientError = false :=
  ⟨rfl, rfl, rfl⟩

/-- C3 (amended): for every Meeting-create request whose `scheduled_at`
text is not a valid date/time, the operation fails — with the parse error
propagating uncaught, surfaced as a server error rather than an
InvalidInput client error — and no record is inserted (the store is
returned unchanged). -/
theorem claim_C3_unparsable_schedule (req : CreateMeetingRequest) (s : Store)
    (h : fromisoformat req.scheduled_at = none) :
    create_meeting req s =
      (.error (.uncaught ("Invalid isoformat string: " ++ req.scheduled_at)), s) ∧
    (AppError.uncaught ("Invalid isoformat string: " ++ req.scheduled_at)).isClientError
      = false := by
  unfold create_meeting
  rw [h]
  exact ⟨rfl, rfl⟩

/-- C3 witness: the concrete bad request fails and leaves the store as it
was. -/
theorem claim_C3_witness :
    create_meeting reqBad exStore =
      (.error (.uncaught ("Invalid isoformat string: " ++ reqBad.scheduled_at)), exStore) :=
  (claim_C3_unparsable_schedule reqBad exStore rfl).1

/-- C4: updating the status of an existing task overwrites exactly the
`status` field of that record — the record keeps every other field, every
other record (in every collection) is untouched — and the handler returns
the identifier with the new status. -/
theorem claim_C4_update_status_frame (s : Store) (tid st : String)
    (hvalid : isValidObjectId tid = true)
    (hmem : ∃ d ∈ s.task, d.lookup "_id" = some (.vOid tid)) :
    ∃ i, i < s.task.length ∧
      (s.task.getD i []).lookup "_id" = some (.vOid tid) ∧
      update_task_status tid st s =
        (.ok (tid, st),
          { s with task := s.task.set i (dictSet (s.task.getD i []) "status" (.vStr st)) }) ∧
      (dictSet (s.task.getD i []) "status" (.vStr st)).lookup "status" = some (.vStr st) ∧
      (∀ k, k ≠ "status" →
        (dictSet (s.task.getD i []) "status" (.vStr st)).lookup k =
          (s.task.getD i []).lookup k) ∧
      (∀ j, j ≠ i →
        (s.task.set i (dictSet (s.task.getD i []) "status" (.vStr st))).getD j [] =
          s.task.getD j []) := by
  obtain ⟨i, hi, hgi, heq⟩ := update_one_set_status_found s.task tid st hmem
  refine ⟨i, hi, hgi, ?_, dictSet_lookup_self _ _ _,
    fun k hk => dictSet_lookup_ne _ _ _ hk, fun j hj => ?_⟩
  · unfold update_task_status
    simp [hvalid, heq]
  · simp [List.getD_eq_getD_get?, List.getElem?_set_ne (Ne.symm hj)]

/-- C4 witness: updating the first example task to "in_progress" succeeds
and returns the id with the new status. -/
theorem claim_C4_witness :
    (update_task_status "c1c1c1c1c1c1c1c1c1c1c1c1" "in_progress" exStore).1 =
      .ok ("c1c1c1c1c1c1c1c1c1c1c1c1", "in_progress") := by
  obtain ⟨i, hi, hgi, heq, hrest⟩ :=
    claim_C4_update_status_frame exStore "c1c1c1c1c1c1c1c1c1c1c1c1" "in_progress"
      (by decide) ⟨exTask1, by decide⟩
  rw [heq]

/-- C5: a status update with a syntactically valid task identifier that
matches no stored record fails with the 404 NotFound error and leaves the
store unchanged. -/
theorem claim_C5_update_status_not_found (s : Store) (tid st : String)
    (hvalid : isValidObjectId tid = true)
    (hnone : ∀ d ∈ s.task, d.lookup "_id" ≠ some (.vOid tid)) :
    update_task_status tid st s = (.error notFoundError, s) ∧
    notFoundError = .httpError 404 "Task not found" := by
  refine ⟨?_, rfl⟩
  unfold update_task_status
  simp [hvalid, update_one_set_status_no_match s.task tid st hnone]

/-- C5 witness: a valid, absent identifier is rejected with NotFound on the
example store. -/
theorem claim_C5_witness :
    update_task_status "d4d4d4d4d4d4d4d4d4d4d4d4" "done" exStore =
      (.error notFoundError, exStore) :=
  (claim_C5_update_status_not_found exStore "d4d4d4d4d4d4d4d4d4d4d4d4" "done"
    (by decide) (by decide)).1

/-- C6: a status update whose task identifier is not a syntactically valid
ObjectId fails with the 400 "Invalid task id" client error — distinct from
the 404 NotFound error, whose branch is never reached — and the store is
unchanged. -/
theorem claim_C6_malformed_identifier (s : Store) (tid st : String)
    (hbad : isValidObjectId tid = false) :
    update_task_status tid st s = (.error invalidTaskIdError, s) ∧
    invalidTaskIdError.isClientError = true ∧
    invalidTaskIdError ≠ notFoundError := by
  refine ⟨?_, rfl, by decide⟩
  unfold update_task_status
  simp [hbad]

/-- C6 witness: the malformed identifier "nope" is rejected with the 400
error on the example store. -/
theorem claim_C6_witness :
    update_task_status "nope" "done" exStore = (.error invalidTaskIdError, exStore) :=
  (claim_C6_malformed_identifier exStore "nope" "done" (by decide)).1

/-- C7: serializing a stored record renames `_id` to a public `id` field
holding its string form, renders every timestamp value as its ISO text
form, and passes every other field through unchanged. -/
theorem claim_C7_serialize_contract (doc : Doc) (v : Value)
    (hid : doc.lookup "_id" = some v)
    (hfresh : doc.lookup "id" = none) :
    (serialize_doc doc).lookup "id" = some (.vStr (pyStr v)) ∧
    (serialize_doc doc).lookup "_id" = none ∧
    (∀ k, k ≠ "_id" → k ≠ "id" →
      (serialize_doc doc).lookup k = (doc.lookup k).map renderField) := by
  have hne : doc.isEmpty = false := by
    cases doc with
    | nil => simp [List.lookup] at hid
    | cons a t => rfl
  have hser : serialize_doc doc =
      renderDoc (dictSet (removeKey doc "_id") "id" (.vStr (pyStr v))) := by
    unfold serialize_doc
    rw [hne, hid]
    simp
  refine ⟨?_, ?_, ?_⟩
  · rw [hser, lookup_renderDoc, dictSet_lookup_self]
    rfl
  · rw [hser, lookup_renderDoc, dictSet_lookup_ne _ _ _ (by decide), lookup_removeKey_self]
    rfl
  · intro k hk1 hk2
    rw [hser, lookup_renderDoc, dictSet_lookup_ne _ _ _ hk2, lookup_removeKey_ne doc "_id" hk1]

/-- C7 witness: a concrete stored record with a datetime field and plain
fields is serialized per the contract. -/
theorem claim_C7_witness :
    (serialize_doc exMeeting1).lookup "id" =
      some (.vStr "b1b1b1b1b1b1b1b1b1b1b1b1") ∧
    (serialize_doc exMeeting1).lookup "scheduled_at" =
      some (.vStr "2024-05-01T09:00:00") :=
  ⟨(claim_C7_serialize_contract exMeeting1 (.vOid "b1b1b1b1b1b1b1b1b1b1b1b1") rfl rfl).1,
   ((claim_C7_serialize_contract exMeeting1 (.vOid "b1b1b1b1b1b1b1b1b1b1b1b1") rfl rfl).2.2
     "scheduled_at" (by decide) (by decide))⟩

/-- C8: the Task list with no filters returns all tasks; with `meeting_id`
supplied it returns exactly the tasks whose `meeting_id` field equals the
supplied value; an omitted optional filter imposes no constraint on its
field (likewise for `assignee_user_id`). -/
theorem claim_C8_task_filter_semantics (s : Store) (m a : String)
    (hm : m ≠ "") (ha : a ≠ "") :
    list_tasks none none s = serialize_list s.task ∧
    list_tasks (some m) none s =
      serialize_list (s.task.filter (fun d => d.lookup "meeting_id" = some (.vStr m))) ∧
    list_tasks none (some a) s =
      serialize_list (s.task.filter (fun d => d.lookup "assignee_user_id" = some (.vStr a))) := by
  refine ⟨?_, ?_, ?_⟩
  · simp [list_tasks, strTruthy, get_documents_empty_filter]
  · simp [list_tasks, strTruthy, hm, get_documents_single]
  · simp [list_tasks, strTruthy, ha, get_documents_single]

/-- C8 witness: filtering the example store's tasks by the first meeting's
identifier keeps exactly the matching tasks. -/
theorem claim_C8_witness :
    list_tasks (some "b1b1b1b1b1b1b1b1b1b1b1b1") none exStore =
      serialize_list (exStore.task.filter
        (fun d => d.lookup "meeting_id" = some (.vStr "b1b1b1b1b1b1b1b1b1b1b1b1"))) :=
  (claim_C8_task_filter_semantics exStore "b1b1b1b1b1b1b1b1b1b1b1b1" "u2"
    (by decide) (by decide)).2.1

/-- C9: defaults are applied at construction — a Meeting made without a
status has status "scheduled", a Task made without a status has status
"open", and a Workspace made without `member_user_ids` has the empty
list. -/
theorem claim_C9_construction_defaults (n o rid ti host mid : String)
    (dt : DateTime) (dur : Option Int) (parts : Option (List String))
    (desc ru asg : Option String) (due : Option DateTime) :
    (Workspace.make n o none desc).member_user_ids = [] ∧
    (Meeting.make rid ti dt dur host parts none ru).status = "scheduled" ∧
    (Task.make mid ti asg due none).status = "open" :=
  ⟨rfl, rfl, rfl⟩

/-- C10: supplying an optional List filter as the empty string is treated
as omitting it — the handler drops the filter and returns the whole
collection, not just records whose field equals the empty string. -/
theorem claim_C10_empty_string_filters (s : Store) :
    list_workspaces (some "") s = list_workspaces none s ∧
    list_workspaces (some "") s = serialize_list s.workspace ∧
    list_meetings (some "") s = list_meetings none s ∧
    list_meetings (some "") s = serialize_list s.meeting ∧
    list_tasks (some "") (some "") s = list_tasks none none s ∧
    list_tasks (some "") (some "") s = serialize_list s.task := by
  refine ⟨?_, ?_, ?_, ?_, ?_, ?_⟩ <;>
    simp [list_workspaces, list_meetings, list_tasks, strTruthy, get_documents_empty_filter]

end QikOffice
